import Mathlib

/-!
Verification development for the citrix-monitor-mcp repository.

The definitions below are a shallow embedding of the Python sources
`src/citrix_monitor_mcp/client.py` (the OData client: configuration,
token cache, session, retry loop, pagination) and
`src/citrix_monitor_mcp/server.py` together with the
`src/citrix_monitor_mcp/tools/*.py` dispatchers.

Modelling conventions:
- environment variables are an explicit `Env` record of optional strings;
- Python truthiness of the option-typed arguments is modelled explicitly
  (`None` and `""` and `[]` and `0` are falsy);
- the HTTP transport is an explicit oracle passed as a function argument:
  for the paginating `query` a function from (url, params) to a response,
  for the retry wrapper a function from the attempt number to a response;
- `while` loops are given explicit fuel; running out of fuel is a
  distinguished outcome that no theorem below ever hits;
- `requests` mutable objects (the `Session`) become explicit state records,
  with a numeric `sid` standing for Python object identity.
-/

namespace Citrix

/-- Python truthiness of an optional string: `None` and `""` are falsy. -/
def truthyStr : Option String → Bool
  | none => false
  | some s => !(s == "")

/-- Python truthiness of an optional list: `None` and `[]` are falsy. -/
def truthyList : Option (List String) → Bool
  | none => false
  | some l => !l.isEmpty

/-- Python truthiness of an optional integer: `None` and `0` are falsy. -/
def truthyInt : Option Int → Bool
  | none => false
  | some n => !(n == 0)

/-- Python `str.lower()` (ASCII case folding suffices for the values used). -/
def pyLower (s : String) : String := ⟨s.data.map Char.toLower⟩

/-- Python `str.startswith(p)`. -/
def pyStartswith (s p : String) : Bool := s.data.take p.data.length == p.data

/-- Python `str.rstrip("/")`: remove every trailing slash. -/
def rstripSlash (s : String) : String :=
  ⟨(s.data.reverse.dropWhile (fun c => c == '/')).reverse⟩

/-- The environment variables read by `client.py`; `none` means unset. -/
structure Env where
  deployment : Option String := none   -- CITRIX_DEPLOYMENT
  region : Option String := none       -- CITRIX_REGION
  verifySsl : Option String := none    -- CITRIX_VERIFY_SSL
  ddcHost : Option String := none      -- CITRIX_DDC_HOST
  customerId : Option String := none   -- CITRIX_CUSTOMER_ID
  clientId : Option String := none     -- CITRIX_CLIENT_ID
  clientSecret : Option String := none -- CITRIX_CLIENT_SECRET
  domain : Option String := none       -- CITRIX_DOMAIN
  username : Option String := none     -- CITRIX_USERNAME
  password : Option String := none     -- CITRIX_PASSWORD

/-- client.py line 44: `os.getenv("CITRIX_DEPLOYMENT", "cloud").lower()`. -/
def deployment_type (env : Env) : String := pyLower (env.deployment.getD "cloud")

/-- client.py line 49: `os.getenv("CITRIX_VERIFY_SSL", "true").lower() == "true"`. -/
def verify_ssl (env : Env) : Bool := pyLower (env.verifySsl.getD "true") == "true"

/-- client.py lines 29-34: the `CLOUD_ENDPOINTS` regional endpoint table. -/
def CLOUD_ENDPOINTS : List (String × String) :=
  [("us", "https://api-us.cloud.com"),
   ("eu", "https://api-eu.cloud.com"),
   ("ap-s", "https://api-ap-s.cloud.com"),
   ("jp", "https://api.citrixcloud.jp")]

/-- client.py lines 52-60: the `base_url` property.
`CLOUD_ENDPOINTS.get(region, CLOUD_ENDPOINTS["us"])` is the lookup with
fallback to the `"us"` entry. -/
def base_url (env : Env) : String :=
  if deployment_type env == "cloud" then
    let region := pyLower (env.region.getD "us")
    let endpoint := (CLOUD_ENDPOINTS.lookup region).getD
      ((CLOUD_ENDPOINTS.lookup "us").getD "")
    endpoint ++ "/monitorodata"
  else
    let host := rstripSlash (env.ddcHost.getD "")
    host ++ "/Citrix/Monitor/OData/v4/Data"

/-- Query-string parameters as an insertion-ordered association list (the
Python `params` dict). -/
abbrev Params := List (String × String)

/-- The keyword arguments of `CitrixMonitorClient.query` (lines 162-172). -/
structure QueryOpts where
  filter : Option String := none
  select : Option (List String) := none
  orderby : Option String := none
  top : Option Int := none
  skip : Option Int := none
  expand : Option (List String) := none
  count : Bool := false

/-- client.py lines 188-202: the OData parameter dict built by `query`.
Each option is gated on Python truthiness (`if filter:`, `if top:`, ...). -/
def buildParams (o : QueryOpts) : Params :=
  (if truthyStr o.filter then [("$filter", o.filter.getD "")] else []) ++
  (if truthyList o.select then
    [("$select", String.intercalate "," (o.select.getD []))] else []) ++
  (if truthyStr o.orderby then [("$orderby", o.orderby.getD "")] else []) ++
  (if truthyInt o.top then [("$top", toString (o.top.getD 0))] else []) ++
  (if truthyInt o.skip then [("$skip", toString (o.skip.getD 0))] else []) ++
  (if truthyList o.expand then
    [("$expand", String.intercalate "," (o.expand.getD []))] else []) ++
  (if o.count then [("$count", "true")] else [])

/-- One decoded page body: the optional `value` array (absent when the JSON
body lacks the key) and the optional `@odata.nextLink`. -/
structure Page (α : Type) where
  value : Option (List α)
  nextLink : Option String
deriving DecidableEq

/-- An HTTP response as seen by the client: a status code and a decoded body. -/
structure Response (β : Type) where
  status : Nat
  body : β
deriving DecidableEq

/-- One issued HTTP request (method, url, and the params passed to
`session.request`; `none` is Python `params=None`). -/
structure Request where
  method : String
  url : String
  params : Option Params
deriving DecidableEq

/-- `requests.Response.raise_for_status` raises exactly for 4xx and 5xx. -/
def raisesForStatus (status : Nat) : Bool :=
  400 ≤ status && status < 600

/-- Errors surfaced by the query engine. `fuelExhausted` is the explicit
cutoff of the embedded `while` loop, not a behaviour of the source. -/
inductive QError where
  | httpError (status : Nat)
  | fuelExhausted
deriving DecidableEq

/-- The transport oracle for collection queries: what `_request_with_retry`
hands back for a GET of the given url with the given params. -/
abbrev Fetch (α : Type) := String → Option Params → Response (Page α)

/-- client.py lines 204-218: the pagination loop of `query`.
`while url:` (an absent or empty link ends the loop); each iteration issues
one request, checks `raise_for_status`, appends `data.get("value", [])`,
moves to `data.get("@odata.nextLink")` and clears `params`. -/
def queryLoop (fetch : Fetch α) :
    Nat → Option String → Option Params → List α → List Request →
    Except QError (List α × List Request)
  | _, none, _, results, reqs => .ok (results, reqs)
  | fuel, some url, params, results, reqs =>
    if url = "" then .ok (results, reqs)
    else
      match fuel with
      | 0 => .error .fuelExhausted
      | fuel' + 1 =>
        let resp := fetch url params
        if raisesForStatus resp.status then .error (.httpError resp.status)
        else
          queryLoop fetch fuel' resp.body.nextLink none
            (results ++ resp.body.value.getD []) (reqs ++ [⟨"GET", url, params⟩])

/-- client.py lines 162-218: `CitrixMonitorClient.query`. Builds the params,
starts at `{base_url}/{entity}` and runs the pagination loop. Returns the
aggregated records together with the trace of issued requests. -/
def query (fetch : Fetch α) (fuel : Nat) (env : Env) (entity : String)
    (o : QueryOpts) : Except QError (List α × List Request) :=
  queryLoop fetch fuel (some (base_url env ++ "/" ++ entity))
    (some (buildParams o)) [] []

/-- client.py lines 233-235: the `$expand` params of `query_single`, after
the `params or None` coercion of an empty dict to `None`. -/
def qsParams (expand : Option (List String)) : Option Params :=
  let params :=
    if truthyList expand then
      [("$expand", String.intercalate "," (expand.getD []))]
    else []
  if params.isEmpty then none else some params

/-- client.py line 237: the single-entity url `{base_url}/{entity}({key})`. -/
def qsUrl (env : Env) (entity key : String) : String :=
  base_url env ++ "/" ++ entity ++ "(" ++ key ++ ")"

/-- client.py lines 220-244: `CitrixMonitorClient.query_single`. One request;
404 becomes `none`, `raise_for_status` errors otherwise, else the decoded
body. The issued request list is returned alongside. -/
def query_single (fetch : String → Option Params → Response β) (env : Env)
    (entity key : String) (expand : Option (List String)) :
    List Request × Except QError (Option β) :=
  let p := qsParams expand
  let url := qsUrl env entity key
  let resp := fetch url p
  ([⟨"GET", url, p⟩],
   if resp.status == 404 then .ok none
   else if raisesForStatus resp.status then .error (.httpError resp.status)
   else .ok (some resp.body))

/-- Outcome of `_request_with_retry`: either a response (with the attempt
index it was returned on and the sleeps performed before it), or the
`Exception("Rate limited after ... retries")` raised after the loop. -/
inductive RetryOutcome (β : Type) where
  | response (r : Response β) (attempt : Nat) (sleeps : List Nat)
  | exhausted (sleeps : List Nat)
deriving DecidableEq

/-- client.py lines 145-158: the body of the `for attempt in
range(max_retries)` loop. `respAt n` is the response the transport yields on
attempt `n` (each attempt is one `session.request` call, preceded by
`_refresh_cloud_session` for cloud deployments, which does not alter the
response). On 429 it sleeps `5 * (attempt + 1)` seconds and retries. -/
def retryLoop (respAt : Nat → Response β) (max_retries : Nat) :
    Nat → List Nat → RetryOutcome β
  | attempt, sleeps =>
    if attempt < max_retries then
      let response := respAt attempt
      if response.status == 429 then
        retryLoop respAt max_retries (attempt + 1) (sleeps ++ [5 * (attempt + 1)])
      else
        .response response attempt sleeps
    else
      .exhausted sleeps
termination_by attempt => max_retries - attempt
decreasing_by omega

/-- client.py lines 141-160: `CitrixMonitorClient._request_with_retry`. -/
def request_with_retry (respAt : Nat → Response β) (max_retries : Nat) :
    RetryOutcome β :=
  retryLoop respAt max_retries 0 []

/-- The token cache of the client: `self._token` and `self._token_expiry`
(client.py lines 37-39). Times are integers (seconds). -/
structure TokenState where
  token : Option String
  tokenExpiry : Option Int
deriving DecidableEq

/-- The decoded response of the token-exchange POST: its status, the
`access_token` field (`none` when the key is missing, which the source reads
with `token_data["access_token"]`, a KeyError) and the optional
`expires_in`. -/
structure TokenResponse where
  status : Nat
  access_token : Option String
  expires_in : Option Int
deriving DecidableEq

/-- Errors of `_get_cloud_token`: the missing-credentials ValueError, the
`raise_for_status` on the token POST, and the KeyError on a body without
`access_token`. -/
inductive TokenError where
  | missingCredentials
  | httpError (status : Nat)
  | keyError
deriving DecidableEq

/-- Result of `_get_cloud_token`: the returned token, the updated cache, and
whether a token-exchange POST was performed on this call. -/
structure TokenResult where
  token : String
  state : TokenState
  exchanged : Bool
deriving DecidableEq

/-- client.py lines 62-101: `CitrixMonitorClient._get_cloud_token`.
`now` is `datetime.now()`; `exchange` is the response the token endpoint
would give if the POST is made. The cached token is reused when
`self._token and self._token_expiry and datetime.now() < self._token_expiry`
(Python truthiness: an empty cached string counts as absent); otherwise,
with the three cloud credentials present, the exchange is performed, and on
success the token is cached with expiry `now + (expires_in - 300)` where
`expires_in` defaults to 3600. -/
def get_cloud_token (env : Env) (now : Int) (exchange : TokenResponse)
    (st : TokenState) : Except TokenError TokenResult :=
  if truthyStr st.token && st.tokenExpiry.isSome &&
      decide (now < st.tokenExpiry.getD 0) then
    .ok { token := st.token.getD "", state := st, exchanged := false }
  else if !(truthyStr env.customerId && truthyStr env.clientId &&
      truthyStr env.clientSecret) then
    .error .missingCredentials
  else if raisesForStatus exchange.status then
    .error (.httpError exchange.status)
  else
    match exchange.access_token with
    | none => .error .keyError
    | some tok =>
      let expires_in := exchange.expires_in.getD 3600
      .ok { token := tok,
            state := { token := some tok,
                       tokenExpiry := some (now + (expires_in - 300)) },
            exchanged := true }

/-- Python dict update of one key in an insertion-ordered association list:
replace in place when present, append when absent. -/
def setHeader (k v : String) : List (String × String) → List (String × String)
  | [] => [(k, v)]
  | (k', v') :: rest =>
    if k' == k then (k, v) :: rest else (k', v') :: setHeader k v rest

/-- The mutable `requests.Session` object: `sid` stands for Python object
identity (a fresh number per construction), with its `verify` flag, header
dict and optional NTLM credential (`domain\\username`, password). -/
structure SessionObj where
  sid : Nat
  verify : Bool
  headers : List (String × String)
  auth : Option (String × String)
deriving DecidableEq

/-- The mutable state of a `CitrixMonitorClient`: `self._session`, the token
cache, the next fresh object id, and a count of `requests.Session()`
constructions performed (for stating the construct-once invariant). -/
structure ClientState where
  session : Option SessionObj
  tokenState : TokenState
  nextSid : Nat
  sessionsCreated : Nat
deriving DecidableEq

/-- Errors surfaced by session construction or refresh. -/
inductive ClientError where
  | tokenError (e : TokenError)
  | missingOnPremCredentials
deriving DecidableEq

/-- client.py lines 103-133: the `session` property. When `self._session` is
`None` it constructs the session (assigning it before fetching any token,
as the source does), sets `verify`, and installs either the cloud headers
(Authorization, Citrix-CustomerId, Accept, via `headers.update`) after
`_get_cloud_token`, or the NTLM credential and Accept header for on-prem.
Returns the (possibly updated) state and the session or the raised error. -/
def sessionGet (env : Env) (now : Int) (exchange : TokenResponse)
    (st : ClientState) : ClientState × Except ClientError SessionObj :=
  match st.session with
  | some s => (st, .ok s)
  | none =>
    let base : SessionObj :=
      { sid := st.nextSid, verify := verify_ssl env, headers := [], auth := none }
    let st1 : ClientState :=
      { st with session := some base, nextSid := st.nextSid + 1,
                sessionsCreated := st.sessionsCreated + 1 }
    if deployment_type env == "cloud" then
      match get_cloud_token env now exchange st1.tokenState with
      | .error e => (st1, .error (.tokenError e))
      | .ok tr =>
        let h1 := setHeader "Authorization" ("CWSAuth bearer=" ++ tr.token)
          base.headers
        let h2 := setHeader "Citrix-CustomerId" (env.customerId.getD "") h1
        let h3 := setHeader "Accept" "application/json" h2
        let s : SessionObj := { base with headers := h3 }
        ({ st1 with session := some s, tokenState := tr.state }, .ok s)
    else
      if !(truthyStr env.username && truthyStr env.password) then
        (st1, .error .missingOnPremCredentials)
      else
        let s : SessionObj :=
          { base with
              auth := some (env.domain.getD "" ++ "\\" ++ env.username.getD "",
                            env.password.getD ""),
              headers := setHeader "Accept" "application/json" base.headers }
        ({ st1 with session := some s }, .ok s)

/-- client.py lines 135-139: `_refresh_cloud_session`. For cloud deployments
it re-derives the token and assigns the session's `Authorization` header in
place; for on-prem it does nothing. -/
def refreshCloudSession (env : Env) (now : Int) (exchange : TokenResponse)
    (st : ClientState) : ClientState × Except ClientError Unit :=
  if deployment_type env == "cloud" then
    match get_cloud_token env now exchange st.tokenState with
    | .error e => (st, .error (.tokenError e))
    | .ok tr =>
      let st1 : ClientState := { st with tokenState := tr.state }
      match sessionGet env now exchange st1 with
      | (st2, .error e) => (st2, .error e)
      | (st2, .ok s) =>
        let s' : SessionObj :=
          { s with headers :=
              setHeader "Authorization" ("CWSAuth bearer=" ++ tr.token) s.headers }
        ({ st2 with session := some s' }, .ok ())
  else
    (st, .ok ())

/-- One client operation touching the session, with the clock value and the
token-endpoint response it would observe. -/
inductive ClientOp where
  | opSession (now : Int) (exchange : TokenResponse)
  | opRefresh (now : Int) (exchange : TokenResponse)

/-- The state transition of one client operation. -/
def clientStep (env : Env) (st : ClientState) : ClientOp → ClientState
  | .opSession now ex => (sessionGet env now ex st).1
  | .opRefresh now ex => (refreshCloudSession env now ex st).1

/-- A sequence of client operations, applied in order. -/
def runOps (env : Env) (st : ClientState) (ops : List ClientOp) : ClientState :=
  ops.foldl (clientStep env) st

/-- client.py lines 292-302: the filter-fragment assembly of
`list_machines`. Each supplied fragment is appended in order and the list is
joined with `" and "`; an empty list yields `None`. -/
def list_machines_filter (filter registration_state power_state : Option String)
    (in_maintenance : Option Bool) : Option String :=
  let filters :=
    (if truthyStr filter then [filter.getD ""] else []) ++
    (if truthyStr registration_state then
      ["CurrentRegistrationState eq '" ++ registration_state.getD "" ++ "'"]
     else []) ++
    (if truthyStr power_state then
      ["CurrentPowerState eq '" ++ power_state.getD "" ++ "'"]
     else []) ++
    (match in_maintenance with
     | some b => ["IsInMaintenanceMode eq " ++ (if b then "true" else "false")]
     | none => [])
  if filters.isEmpty then none
  else some (String.intercalate " and " filters)

/-- client.py lines 284-303: `list_machines`, which forwards the combined
filter to `query "Machines"`. -/
def list_machines (fetch : Fetch α) (fuel : Nat) (env : Env)
    (filter registration_state power_state : Option String)
    (in_maintenance : Option Bool) : Except QError (List α × List Request) :=
  query fetch fuel env "Machines"
    { filter := list_machines_filter filter registration_state power_state
        in_maintenance }

/-- A JSON value, for the payloads crossing the MCP dispatch boundary. -/
inductive Json where
  | null
  | bool (b : Bool)
  | num (n : Int)
  | str (s : String)
  | arr (elems : List Json)
  | obj (fields : List (String × Json))

/-- server.py line 59: the `format_result` payload built from a caught
exception. -/
def formatError (msg : String) : Json := .obj [("error", .str msg)]

/-- tools/machines.py: the registered tool names. -/
def machinesToolNames : List String :=
  ["citrix_machine_list", "citrix_machine_status", "citrix_machine_metrics",
   "citrix_machine_failures"]

/-- tools/sessions.py: the registered tool names. -/
def sessionsToolNames : List String :=
  ["citrix_session_list", "citrix_session_details",
   "citrix_session_logon_metrics", "citrix_session_count"]

/-- tools/connections.py: the registered tool names. -/
def connectionsToolNames : List String :=
  ["citrix_connection_list", "citrix_connection_failures",
   "citrix_failure_summary"]

/-- tools/applications.py: the registered tool names. -/
def applicationsToolNames : List String :=
  ["citrix_app_list", "citrix_app_instances", "citrix_app_errors"]

/-- tools/users.py: the registered tool names. -/
def usersToolNames : List String :=
  ["citrix_user_list", "citrix_user_details", "citrix_user_sessions"]

/-- tools/analytics.py: the registered tool names. -/
def analyticsToolNames : List String :=
  ["citrix_query_raw", "citrix_delivery_groups", "citrix_hypervisors",
   "citrix_load_index", "citrix_entity_count", "citrix_aggregate"]

/-- Every registered tool name across the six modules. -/
def allToolNames : List String :=
  machinesToolNames ++ sessionsToolNames ++ connectionsToolNames ++
  applicationsToolNames ++ usersToolNames ++ analyticsToolNames

/-- The body of one recognised tool branch: a client call that either
returns a JSON result or raises (`Except.error` carries `str(e)`). The
branch bodies perform network and client work, abstracted by this oracle. -/
abbrev ToolOracle := String → List (String × Json) → Except String Json

/-- The shared shape of each module's `handle_tool`: an if/elif chain over
the module's tool names, whose final `else` raises
`ValueError(f"Unknown tool: ...")` with the tool name interpolated. -/
def moduleHandleTool (names : List String) (ops : ToolOracle) (name : String)
    (args : List (String × Json)) : Except String Json :=
  if name ∈ names then ops name args
  else .error ("Unknown tool: " ++ name)

/-- server.py lines 42-54: the prefix routing table of `call_tool` — the
module name list an incoming tool name is dispatched to. -/
def routeNames (name : String) : List String :=
  if pyStartswith name "citrix_machine" then machinesToolNames
  else if pyStartswith name "citrix_session" then sessionsToolNames
  else if pyStartswith name "citrix_connection" ||
      pyStartswith name "citrix_failure" then connectionsToolNames
  else if pyStartswith name "citrix_app" then applicationsToolNames
  else if pyStartswith name "citrix_user" then usersToolNames
  else analyticsToolNames

/-- server.py lines 35-59: `call_tool`. Routes by name prefix to the owning
module handler inside a `try`, and converts any raised error into the
`format_result({"error": str(e)})` text payload. Total by construction: the
dispatch boundary never re-raises. -/
def callTool (ops : ToolOracle) (name : String) (args : List (String × Json)) :
    Json :=
  let result : Except String Json :=
    if pyStartswith name "citrix_machine" then
      moduleHandleTool machinesToolNames ops name args
    else if pyStartswith name "citrix_session" then
      moduleHandleTool sessionsToolNames ops name args
    else if pyStartswith name "citrix_connection" ||
        pyStartswith name "citrix_failure" then
      moduleHandleTool connectionsToolNames ops name args
    else if pyStartswith name "citrix_app" then
      moduleHandleTool applicationsToolNames ops name args
    else if pyStartswith name "citrix_user" then
      moduleHandleTool usersToolNames ops name args
    else
      moduleHandleTool analyticsToolNames ops name args
  match result with
  | .ok v => v
  | .error e => formatError e

/-- A fetch-consistent chain of pages. Each element pairs the url a page is
served at with the page body; the head is requested with params `p`, every
later element with `params=None`; each request yields status 200 with the
given page, and each page's next-page link is exactly the next element's
url (absent for the last page). Urls are nonempty (the loop condition
`while url:` would silently stop on an empty link). -/
def chainLinked (fetch : Fetch α) : Option Params → List (String × Page α) → Prop
  | _, [] => True
  | p, (u, pg) :: rest =>
    u ≠ "" ∧ fetch u p = ⟨200, pg⟩ ∧ pg.nextLink = rest.head?.map Prod.fst ∧
    chainLinked fetch none rest

/-- The requests a chain gives rise to: one GET per page, the first carrying
`p`, all follow-ups carrying `params=None`. -/
def chainReqs : Option Params → List (String × Page α) → List Request
  | _, [] => []
  | p, (u, _) :: rest => ⟨"GET", u, p⟩ :: chainReqs none rest

/-- The concatenation of each page's `value` array in page order, a missing
`value` field contributing zero records. -/
def chainRecords (chain : List (String × Page α)) : List α :=
  (chain.map (fun e => e.2.value.getD [])).flatten

/-! Concrete fixtures used by witnesses and counterexamples. -/

/-- A cloud-mode environment with the default `us` region. -/
def envCloudW : Env :=
  { deployment := some "cloud", region := some "us",
    customerId := some "acme", clientId := some "cid",
    clientSecret := some "sec" }

/-- A cloud-mode environment with a region code not in the endpoint table. -/
def envMarsW : Env := { deployment := some "cloud", region := some "mars" }

/-- A cloud-mode environment with the `eu` region. -/
def envEuW : Env := { deployment := some "cloud", region := some "eu" }

/-- An on-premises environment whose host has no trailing slash. -/
def envOnpremW : Env :=
  { deployment := some "onprem", ddcHost := some "https://ddc.example.com",
    username := some "admin", password := some "pw" }

/-- An on-premises environment whose host carries a trailing slash. -/
def envSlashW : Env :=
  { deployment := some "onprem", ddcHost := some "https://ddc.example.com/" }

/-- A transport serving a single empty page for any request. -/
def fetchOneW : Fetch Nat := fun _ _ => ⟨200, { value := some [], nextLink := none }⟩

/-- A transport answering status 300 with body `7` to any request. -/
def fetch300W : String → Option Params → Response Nat := fun _ _ => ⟨300, 7⟩

/-- A transport answering status 404 to any request. -/
def fetch404W : String → Option Params → Response Nat := fun _ _ => ⟨404, 7⟩

/-- A transport answering status 500 to any request. -/
def fetch500W : String → Option Params → Response Nat := fun _ _ => ⟨500, 7⟩

/-- Attempt-indexed responses: 429 on the first two attempts, then 200. -/
def respTwice429W : Nat → Response Nat := fun n =>
  if n < 2 then ⟨429, 0⟩ else ⟨200, 7⟩

/-- Attempt-indexed responses: 429 on every attempt. -/
def respAll429W : Nat → Response Nat := fun _ => ⟨429, 0⟩

/-- First page of the two-page witness collection. -/
def pageOneW : Page Nat := { value := some [1, 2], nextLink := some "https://next1" }

/-- Second (final) page of the two-page witness collection. -/
def pageTwoW : Page Nat := { value := some [3], nextLink := none }

/-- First page of the witness collection whose body lacks a `value` field. -/
def pageNoValW : Page Nat := { value := none, nextLink := some "https://next1" }

/-- A transport serving the two-page witness collection. -/
def fetchTwoPagesW : Fetch Nat := fun url _ =>
  if url == "https://api-us.cloud.com/monitorodata/Machines" then ⟨200, pageOneW⟩
  else if url == "https://next1" then ⟨200, pageTwoW⟩
  else ⟨500, { value := none, nextLink := none }⟩

/-- A transport whose first page body lacks a `value` field. -/
def fetchNoValW : Fetch Nat := fun url _ =>
  if url == "https://api-us.cloud.com/monitorodata/Machines" then ⟨200, pageNoValW⟩
  else if url == "https://next1" then ⟨200, pageTwoW⟩
  else ⟨500, { value := none, nextLink := none }⟩

/-- The witness chain for the two-page collection. -/
def chainTwoW : List (String × Page Nat) :=
  [("https://api-us.cloud.com/monitorodata/Machines", pageOneW),
   ("https://next1", pageTwoW)]

/-- The witness chain whose first page lacks a `value` field. -/
def chainNoValW : List (String × Page Nat) :=
  [("https://api-us.cloud.com/monitorodata/Machines", pageNoValW),
   ("https://next1", pageTwoW)]

/-- Query options used by the pagination witnesses. -/
def optsW : QueryOpts := { filter := some "EndDate eq null" }

/-- An oracle whose every recognised branch raises. -/
def opsErrW : ToolOracle := fun _ _ => .error "boom"

/-- The token-endpoint response fixture. -/
def exchW : TokenResponse :=
  { status := 200, access_token := some "newtok", expires_in := some 3600 }

/-- An already-built session fixture. -/
def sessW : SessionObj :=
  { sid := 0, verify := true,
    headers := [("Authorization", "CWSAuth bearer=old"),
                ("Citrix-CustomerId", "acme"), ("Accept", "application/json")],
    auth := none }

/-- A client state holding `sessW` and a cached, valid token. -/
def stSomeW : ClientState :=
  { session := some sessW, tokenState := { token := some "old", tokenExpiry := some 1000 },
    nextSid := 1, sessionsCreated := 1 }

/-- The fresh client state: no session, nothing created. -/
def st0W : ClientState :=
  { session := none, tokenState := { token := none, tokenExpiry := none },
    nextSid := 0, sessionsCreated := 0 }

/-- A witness operation sequence touching the session three times. -/
def opsListW : List ClientOp :=
  [ClientOp.opSession 0 exchW, ClientOp.opRefresh 10 exchW,
   ClientOp.opRefresh 5000 exchW]

/-! ## Helper lemmas -/

/-- Unfolding of the retry loop on a 429 response. -/
lemma retryLoop_continue (respAt : Nat → Response β) (m attempt : Nat)
    (sl : List Nat) (h : attempt < m) (hs : (respAt attempt).status = 429) :
    retryLoop respAt m attempt sl =
      retryLoop respAt m (attempt + 1) (sl ++ [5 * (attempt + 1)]) := by
  rw [retryLoop]
  simp [h, hs]

/-- Unfolding of the retry loop on a non-429 response. -/
lemma retryLoop_stop (respAt : Nat → Response β) (m attempt : Nat)
    (sl : List Nat) (h : attempt < m) (hs : (respAt attempt).status ≠ 429) :
    retryLoop respAt m attempt sl = .response (respAt attempt) attempt sl := by
  rw [retryLoop]
  simp [h, hs]

/-- Unfolding of the retry loop once the attempt budget is spent. -/
lemma retryLoop_exhausted (respAt : Nat → Response β) (m attempt : Nat)
    (sl : List Nat) (h : m ≤ attempt) :
    retryLoop respAt m attempt sl = .exhausted sl := by
  rw [retryLoop]
  simp [Nat.not_lt.mpr h]

/-- Every request of a chain has length-preserving shape: one request per
page. -/
lemma chainReqs_length (chain : List (String × Page α)) :
    ∀ p, (chainReqs p chain).length = chain.length := by
  induction chain with
  | nil => intro p; rfl
  | cons hd tl ih =>
    intro p
    obtain ⟨u, pg⟩ := hd
    simp [chainReqs, ih none]

/-- Every follow-up request of a chain carries no params. -/
lemma chainReqs_params_none (chain : List (String × Page α)) :
    ∀ r ∈ chainReqs (α := α) none chain, r.params = none := by
  induction chain with
  | nil => intro r hr; simp [chainReqs] at hr
  | cons hd tl ih =>
    intro r hr
    obtain ⟨u, pg⟩ := hd
    simp only [chainReqs, List.mem_cons] at hr
    rcases hr with h | h
    · rw [h]
    · exact ih r h

/-- Page records distribute over chain concatenation. -/
lemma chainRecords_append (a b : List (String × Page α)) :
    chainRecords (a ++ b) = chainRecords a ++ chainRecords b := by
  simp [chainRecords]

/-- The pagination loop consumes a fetch-consistent chain: starting from the
chain's first url it returns the accumulated records extended by every
page's records, and the trace extended by one request per page (the first
with the initial params, follow-ups with none). -/
lemma queryLoop_chain (fetch : Fetch α) (chain : List (String × Page α)) :
    ∀ (p : Option Params) (fuel : Nat) (acc : List α) (reqs : List Request),
      chainLinked fetch p chain → chain.length ≤ fuel →
      queryLoop fetch fuel (chain.head?.map Prod.fst) p acc reqs =
        .ok (acc ++ chainRecords chain, reqs ++ chainReqs p chain) := by
  induction chain with
  | nil =>
    intro p fuel acc reqs _ _
    simp [queryLoop, chainRecords, chainReqs]
  | cons hd tl ih =>
    intro p fuel acc reqs hl hf
    obtain ⟨u, pg⟩ := hd
    obtain ⟨hu, hfetch, hnext, hrest⟩ := hl
    match fuel with
    | 0 => simp at hf
    | fuel' + 1 =>
      have htl : tl.length ≤ fuel' := by
        simp only [List.length_cons] at hf
        omega
      show queryLoop fetch (fuel' + 1) (some u) p acc reqs = _
      rw [queryLoop]
      simp only [if_neg hu, hfetch]
      have hsr : raisesForStatus 200 = false := rfl
      simp only [hsr, Bool.false_eq_true, if_false]
      rw [hnext]
      have hrec := ih none fuel' (acc ++ pg.value.getD [])
        (reqs ++ [{ method := "GET", url := u, params := p }]) hrest htl
      rw [hrec]
      simp [chainRecords, chainReqs]

/-- Stripping trailing slashes is the identity on a string that does not end
in a slash. -/
lemma rstripSlash_eq_self (s : String) (h : s.data.getLast? ≠ some '/') :
    rstripSlash s = s := by
  obtain ⟨d⟩ := s
  simp only [rstripSlash]
  rcases hr : d.reverse with _ | ⟨c, cs⟩
  · have hd : d = [] := by simpa using congrArg List.reverse hr
    subst hd
    rfl
  · have hc : d.getLast? = some c := by
      rw [← List.head?_reverse, hr]
      rfl
    have hcn : (c == '/') = false := by
      rcases hcc : c == '/' with _ | _
      · rfl
      · exact absurd (by rw [hc, beq_iff_eq.mp hcc] : d.getLast? = some '/') h
    have hd : d = (c :: cs).reverse := by rw [← hr, List.reverse_reverse]
    simp only [List.dropWhile_cons, hcn, Bool.false_eq_true, if_false]
    rw [← hd]

/-! ## Theorems -/

/-- C10: because each option of the query parameter builder is gated on
Python truthiness rather than presence, a call with `top=0` sends no `$top`
parameter, `skip=0` sends no `$skip` parameter, and an empty-string filter
sends no `$filter` parameter: each produces exactly the parameter list of
the absent option. -/
theorem buildParams_truthiness (f : Option String) (s : Option (List String))
    (ob : Option String) (t sk : Option Int) (e : Option (List String))
    (c : Bool) :
    buildParams ⟨f, s, ob, some 0, sk, e, c⟩ =
      buildParams ⟨f, s, ob, none, sk, e, c⟩ ∧
    (buildParams ⟨f, s, ob, some 0, sk, e, c⟩).all
      (fun kv => !(kv.1 == "$top")) = true ∧
    buildParams ⟨f, s, ob, t, some 0, e, c⟩ =
      buildParams ⟨f, s, ob, t, none, e, c⟩ ∧
    (buildParams ⟨f, s, ob, t, some 0, e, c⟩).all
      (fun kv => !(kv.1 == "$skip")) = true ∧
    buildParams ⟨some "", s, ob, t, sk, e, c⟩ =
      buildParams ⟨none, s, ob, t, sk, e, c⟩ ∧
    (buildParams ⟨some "", s, ob, t, sk, e, c⟩).all
      (fun kv => !(kv.1 == "$filter")) = true := by
  have hall : ∀ (b : Bool) (kv : String × String) (p : String × String → Bool),
      p kv = true → (if b = true then [kv] else []).all p = true := by
    intro b kv p h
    cases b <;> simp [h]
  refine ⟨rfl, ?_, rfl, ?_, rfl, ?_⟩ <;>
    simp only [buildParams, List.all_append, Bool.and_eq_true] <;>
    refine ⟨⟨⟨⟨⟨⟨?_, ?_⟩, ?_⟩, ?_⟩, ?_⟩, ?_⟩, ?_⟩ <;>
    first
      | exact hall _ _ _ (by decide)
      | simp [truthyInt, truthyStr]

/-- C5: the machine-listing filter assembly. With
`registration_state="Registered"` and `power_state="On"` the combined
filter string is exactly
`CurrentRegistrationState eq 'Registered' and CurrentPowerState eq 'On'`,
and the single issued request carries it as the sole `$filter` parameter;
with no filter fragments supplied the combined filter is `None` and the
issued request carries no `$filter` parameter at all. -/
theorem list_machines_filter_assembly :
    list_machines_filter none (some "Registered") (some "On") none =
      some "CurrentRegistrationState eq 'Registered' and CurrentPowerState eq 'On'" ∧
    list_machines fetchOneW 1 envCloudW none (some "Registered") (some "On")
        none =
      .ok ([], [⟨"GET", "https://api-us.cloud.com/monitorodata/Machines",
        some [("$filter",
          "CurrentRegistrationState eq 'Registered' and CurrentPowerState eq 'On'")]⟩]) ∧
    list_machines fetchOneW 1 envCloudW none none none none =
      .ok ([], [⟨"GET", "https://api-us.cloud.com/monitorodata/Machines",
        some []⟩]) := by
  refine ⟨rfl, rfl, rfl⟩

/-- C2: the retry wrapper with `max_retries = 3`. Responses 429, 429, then
non-429 give the third response back after sleeping 5 then 10 seconds; 429
on every attempt exhausts the budget (sleeping 5, 10, 15) and raises
instead of returning a response; and the first non-429 response at any
attempt is returned immediately with no further attempt. -/
theorem request_with_retry_spec (β : Type) (respAt : Nat → Response β) :
    ((respAt 0).status = 429 → (respAt 1).status = 429 →
      (respAt 2).status ≠ 429 →
      request_with_retry respAt 3 = .response (respAt 2) 2 [5, 10]) ∧
    ((∀ i, i < 3 → (respAt i).status = 429) →
      request_with_retry respAt 3 = .exhausted [5, 10, 15]) ∧
    (∀ i, i < 3 → (∀ k, k < i → (respAt k).status = 429) →
      (respAt i).status ≠ 429 →
      request_with_retry respAt 3 =
        .response (respAt i) i ((List.range i).map (fun k => 5 * (k + 1)))) := by
  refine ⟨?_, ?_, ?_⟩
  · intro h0 h1 h2
    unfold request_with_retry
    rw [retryLoop_continue respAt 3 0 [] (by omega) h0,
        retryLoop_continue respAt 3 1 _ (by omega) h1,
        retryLoop_stop respAt 3 2 _ (by omega) h2]
    norm_num
  · intro h
    unfold request_with_retry
    rw [retryLoop_continue respAt 3 0 [] (by omega) (h 0 (by omega)),
        retryLoop_continue respAt 3 1 _ (by omega) (h 1 (by omega)),
        retryLoop_continue respAt 3 2 _ (by omega) (h 2 (by omega)),
        retryLoop_exhausted respAt 3 3 _ (by omega)]
    norm_num
  · intro i hi hk hs
    interval_cases i
    · unfold request_with_retry
      rw [retryLoop_stop respAt 3 0 [] (by omega) hs]
      congr 1
    · unfold request_with_retry
      rw [retryLoop_continue respAt 3 0 [] (by omega) (hk 0 (by omega)),
          retryLoop_stop respAt 3 1 _ (by omega) hs]
      congr 1
    · unfold request_with_retry
      rw [retryLoop_continue respAt 3 0 [] (by omega) (hk 0 (by omega)),
          retryLoop_continue respAt 3 1 _ (by omega) (hk 1 (by omega)),
          retryLoop_stop respAt 3 2 _ (by omega) hs]
      congr 1

/-- C2 witness: concrete transports realising the 429-429-200 run and the
all-429 run. -/
theorem request_with_retry_spec_witness :
    request_with_retry respTwice429W 3 =
      .response (respTwice429W 2) 2 [5, 10] ∧
    request_with_retry respAll429W 3 = .exhausted [5, 10, 15] :=
  ⟨(request_with_retry_spec Nat respTwice429W).1 (by decide) (by decide)
      (by decide),
   (request_with_retry_spec Nat respAll429W).2.1 (fun i _ => rfl)⟩

/-- C3: the cloud token getter. With a truthy cached token whose stored
expiry lies in the future, the cached token is returned unchanged and no
token-exchange request is made; otherwise, with the three credentials
configured, the exchange is performed and a 2xx response caches its
`access_token` with expiry `now + (expires_in - 300)`, `expires_in`
defaulting to 3600 when absent. -/
theorem get_cloud_token_spec (env : Env) (now : Int) (exchange : TokenResponse)
    (st : TokenState) :
    (∀ t e, st.token = some t → t ≠ "" → st.tokenExpiry = some e → now < e →
      get_cloud_token env now exchange st =
        .ok { token := t, state := st, exchanged := false }) ∧
    ((truthyStr st.token && st.tokenExpiry.isSome &&
        decide (now < st.tokenExpiry.getD 0)) = false →
      truthyStr env.customerId = true → truthyStr env.clientId = true →
      truthyStr env.clientSecret = true → exchange.status = 200 →
      ∀ tok, exchange.access_token = some tok →
        get_cloud_token env now exchange st =
          .ok { token := tok,
                state := { token := some tok,
                           tokenExpiry :=
                             some (now + (exchange.expires_in.getD 3600 - 300)) },
                exchanged := true }) := by
  constructor
  · intro t e ht htne he hlt
    have h1 : truthyStr (some t) = true := by
      simp [truthyStr, htne]
    simp [get_cloud_token, ht, he, h1, hlt]
  · intro hinv h1 h2 h3 hst tok htok
    simp [get_cloud_token, hinv, h1, h2, h3, hst, htok, raisesForStatus]

/-- C3 witness: a valid cached token is returned with no exchange; a cold
cache performs the exchange and caches with the 300-second safety margin. -/
theorem get_cloud_token_spec_witness :
    get_cloud_token envCloudW 100 exchW
        { token := some "old", tokenExpiry := some 1000 } =
      .ok { token := "old",
            state := { token := some "old", tokenExpiry := some 1000 },
            exchanged := false } ∧
    get_cloud_token envCloudW 100 exchW { token := none, tokenExpiry := none } =
      .ok { token := "newtok",
            state := { token := some "newtok",
                       tokenExpiry :=
                         some (100 + (exchW.expires_in.getD 3600 - 300)) },
            exchanged := true } :=
  ⟨(get_cloud_token_spec envCloudW 100 exchW
      { token := some "old", tokenExpiry := some 1000 }).1 "old" 1000 rfl
      (by decide) rfl (by norm_num),
   (get_cloud_token_spec envCloudW 100 exchW
      { token := none, tokenExpiry := none }).2 (by decide) (by decide)
      (by decide) (by decide) rfl "newtok" rfl⟩

/-- C4 counterexample: a 300 upstream response (non-2xx and non-404) makes
`query_single` return the decoded body as a success instead of raising —
`requests.Response.raise_for_status` only raises for 4xx and 5xx, so the
claim that every non-2xx other than 404 raises is false at status 300. -/
theorem query_single_non2xx_counterexample :
    fetch300W (qsUrl envCloudW "Machines" "1") (qsParams none) =
      { status := 300, body := 7 } ∧
    (query_single fetch300W envCloudW "Machines" "1" none).2 = .ok (some 7) :=
  ⟨rfl, rfl⟩

/-- C4 (amended): `query_single` yields `none` (no error) on a 404; it
raises exactly on the statuses `raise_for_status` covers, 4xx and 5xx other
than 404; a sub-400 status (2xx but also 1xx/3xx) returns the decoded body
as success; and exactly one request is issued — no pagination. -/
theorem query_single_spec_amended (β : Type)
    (fetch : String → Option Params → Response β) (env : Env)
    (entity key : String) (expand : Option (List String)) :
    ((fetch (qsUrl env entity key) (qsParams expand)).status = 404 →
      (query_single fetch env entity key expand).2 = .ok none) ∧
    (∀ s, (fetch (qsUrl env entity key) (qsParams expand)).status = s →
      400 ≤ s → s < 600 → s ≠ 404 →
      (query_single fetch env entity key expand).2 =
        .error (.httpError s)) ∧
    ((fetch (qsUrl env entity key) (qsParams expand)).status < 400 →
      (query_single fetch env entity key expand).2 =
        .ok (some (fetch (qsUrl env entity key) (qsParams expand)).body)) ∧
    (query_single fetch env entity key expand).1.length = 1 := by
  refine ⟨?_, ?_, ?_, rfl⟩
  · intro h
    simp [query_single, h]
  · intro s hs h4 h6 hne
    simp [query_single, hs, hne, raisesForStatus, h4, h6]
  · intro h
    have h404 : (fetch (qsUrl env entity key) (qsParams expand)).status ≠ 404 := by
      omega
    simp [query_single, h404, raisesForStatus, Nat.not_le.mpr h]

/-- C4 witness: a 404 yields `none`, a 500 raises, a 300 returns the body,
and the request trace has length one. -/
theorem query_single_spec_amended_witness :
    (query_single fetch404W envCloudW "Machines" "1" none).2 = .ok none ∧
    (query_single fetch500W envCloudW "Machines" "1" none).2 =
      .error (.httpError 500) ∧
    (query_single fetch300W envCloudW "Sessions" "2" none).2 =
      .ok (some (fetch300W (qsUrl envCloudW "Sessions" "2")
        (qsParams none)).body) ∧
    (query_single fetch404W envCloudW "Machines" "1" none).1.length = 1 :=
  ⟨(query_single_spec_amended Nat fetch404W envCloudW "Machines" "1" none).1
      rfl,
   (query_single_spec_amended Nat fetch500W envCloudW "Machines" "1" none).2.1
      500 rfl (by norm_num) (by norm_num) (by norm_num),
   (query_single_spec_amended Nat fetch300W envCloudW "Sessions" "2" none).2.2.1
      (by decide),
   (query_single_spec_amended Nat fetch404W envCloudW "Machines" "1" none).2.2.2⟩

/-- C6 counterexample: with a configured on-premises host carrying a
trailing slash, `base_url` is not the configured host concatenated with the
OData root path — the source first strips trailing slashes. -/
theorem base_url_trailing_slash_counterexample :
    base_url envSlashW ≠
      (envSlashW.ddcHost.getD "") ++ "/Citrix/Monitor/OData/v4/Data" := by
  decide

/-- C6 (amended): `base_url` is a pure function of the configuration. In
cloud mode it is the configured region's endpoint host concatenated with
`/monitorodata`, any region code outside the endpoint table falling back to
the `us` endpoint instead of failing; in on-premises mode it is the
configured host, trailing slashes stripped, concatenated with the fixed
OData root path (so a host without a trailing slash is used verbatim). -/
theorem base_url_spec_amended (env : Env) :
    (deployment_type env = "cloud" →
      (CLOUD_ENDPOINTS.lookup (pyLower (env.region.getD "us")) = none →
        base_url env = "https://api-us.cloud.com/monitorodata") ∧
      (∀ e, CLOUD_ENDPOINTS.lookup (pyLower (env.region.getD "us")) = some e →
        base_url env = e ++ "/monitorodata")) ∧
    (deployment_type env ≠ "cloud" →
      base_url env =
        rstripSlash (env.ddcHost.getD "") ++ "/Citrix/Monitor/OData/v4/Data" ∧
      ((env.ddcHost.getD "").data.getLast? ≠ some '/' →
        base_url env =
          (env.ddcHost.getD "") ++ "/Citrix/Monitor/OData/v4/Data")) := by
  constructor
  · intro hc
    constructor
    · intro hnone
      simp only [base_url, hc, beq_self_eq_true, if_true]
      rw [hnone]
      rfl
    · intro e he
      simp only [base_url, hc, beq_self_eq_true, if_true]
      rw [he]
      rfl
  · intro hnc
    have hb : (deployment_type env == "cloud") = false := by
      simpa using hnc
    constructor
    · simp [base_url, hb]
    · intro hl
      simp [base_url, hb, rstripSlash_eq_self _ hl]

/-- C6 witness: the unknown region `mars` falls back to the `us` endpoint,
the known region `eu` maps to its endpoint, and a slash-free on-premises
host is concatenated verbatim. -/
theorem base_url_spec_amended_witness :
    base_url envMarsW = "https://api-us.cloud.com/monitorodata" ∧
    base_url envEuW = "https://api-eu.cloud.com" ++ "/monitorodata" ∧
    base_url envOnpremW =
      (envOnpremW.ddcHost.getD "") ++ "/Citrix/Monitor/OData/v4/Data" :=
  ⟨((base_url_spec_amended envMarsW).1 (by decide)).1 (by decide),
   ((base_url_spec_amended envEuW).1 (by decide)).2
      "https://api-eu.cloud.com" (by decide),
   ((base_url_spec_amended envOnpremW).2 (by decide)).2 (by decide)⟩

/-- C1: for every paginated collection query — a fetch-consistent chain of
pages starting at `{base_url}/{entity}` — `query` returns exactly the
concatenation of each page's `value` array in page order, issues exactly
one request per page, attaches the built OData parameters to the first
request only, and attaches no parameters to any follow-up request (whose
url is the previous page's next-page link verbatim, by `chainLinked`). -/
theorem query_pagination_concat (α : Type) (fetch : Fetch α) (env : Env)
    (entity : String) (o : QueryOpts) (chain : List (String × Page α))
    (fuel : Nat)
    (hhead : chain.head?.map Prod.fst = some (base_url env ++ "/" ++ entity))
    (hl : chainLinked fetch (some (buildParams o)) chain)
    (hf : chain.length ≤ fuel) :
    query fetch fuel env entity o =
      .ok (chainRecords chain, chainReqs (some (buildParams o)) chain) ∧
    (chainReqs (some (buildParams o)) chain).length = chain.length ∧
    (chainReqs (some (buildParams o)) chain).head?.map Request.params =
      some (some (buildParams o)) ∧
    ∀ r ∈ (chainReqs (some (buildParams o)) chain).tail, r.params = none := by
  have hmain := queryLoop_chain fetch chain (some (buildParams o)) fuel [] []
    hl hf
  rcases chain with _ | ⟨⟨u, pg⟩, tl⟩
  · simp at hhead
  · have hu : u = base_url env ++ "/" ++ entity := by
      simpa using hhead
    refine ⟨?_, chainReqs_length _ _, rfl, ?_⟩
    · rw [query, ← hu]
      simpa using hmain
    · intro r hr
      exact chainReqs_params_none tl r hr

/-- C1 witness: a concrete two-page collection served by `fetchTwoPagesW`. -/
theorem query_pagination_concat_witness :
    query fetchTwoPagesW 2 envCloudW "Machines" optsW =
      .ok (chainRecords chainTwoW,
           chainReqs (some (buildParams optsW)) chainTwoW) ∧
    (chainReqs (some (buildParams optsW)) chainTwoW).length =
      chainTwoW.length ∧
    (chainReqs (some (buildParams optsW)) chainTwoW).head?.map
      Request.params = some (some (buildParams optsW)) ∧
    ∀ r ∈ (chainReqs (some (buildParams optsW)) chainTwoW).tail,
      r.params = none :=
  query_pagination_concat Nat fetchTwoPagesW envCloudW "Machines" optsW
    chainTwoW 2 rfl
    ⟨by decide, rfl, rfl, by decide, rfl, rfl, trivial⟩ (by decide)

/-- The dispatch of `call_tool` factored through the routing table: routing
then handling equals the inlined if/elif chain. -/
lemma callTool_route (ops : ToolOracle) (name : String)
    (args : List (String × Json)) :
    callTool ops name args =
      match moduleHandleTool (routeNames name) ops name args with
      | .ok v => v
      | .error e => formatError e := by
  simp only [callTool, routeNames]
  split_ifs <;> rfl

/-- Every registered tool name is routed to the module that registers it. -/
lemma route_contains : ∀ n ∈ allToolNames, n ∈ routeNames n := by
  decide

/-- Every name list the router can return is included in the set of all
registered tool names. -/
lemma route_subset (name : String) : ∀ x ∈ routeNames name, x ∈ allToolNames := by
  unfold routeNames
  split_ifs <;> intro x hx <;>
    simp only [allToolNames, List.mem_append] <;> tauto

/-- C7: the dispatch boundary of `call_tool`. Errors raised inside a
recognised operation handler are caught and converted to the
`{"error": message}` payload; a successful handler result is returned as
the payload; and an unrecognized tool name always produces
`{"error": "Unknown tool: <name>"}` — in no case does an error propagate
past the dispatch boundary (`callTool` is a total function into payloads).
-/
theorem call_tool_error_boundary (ops : ToolOracle) (name : String)
    (args : List (String × Json)) :
    (∀ e, name ∈ allToolNames → ops name args = .error e →
      callTool ops name args = formatError e) ∧
    (∀ v, name ∈ allToolNames → ops name args = .ok v →
      callTool ops name args = v) ∧
    (name ∉ allToolNames →
      callTool ops name args = formatError ("Unknown tool: " ++ name)) := by
  refine ⟨?_, ?_, ?_⟩
  · intro e hmem hop
    rw [callTool_route]
    simp [moduleHandleTool, route_contains name hmem, hop]
  · intro v hmem hop
    rw [callTool_route]
    simp [moduleHandleTool, route_contains name hmem, hop]
  · intro hmem
    have hnr : name ∉ routeNames name := fun h => hmem (route_subset name name h)
    rw [callTool_route]
    simp [moduleHandleTool, hnr]

/-- C7 witness: a raising handler is converted to an error payload, and an
unknown name yields the unknown-tool payload. -/
theorem call_tool_error_boundary_witness :
    callTool opsErrW "citrix_machine_list" [] = formatError "boom" ∧
    callTool opsErrW "citrix_bogus" [] =
      formatError ("Unknown tool: " ++ "citrix_bogus") :=
  ⟨(call_tool_error_boundary opsErrW "citrix_machine_list" []).1 "boom"
      (by decide) rfl,
   (call_tool_error_boundary opsErrW "citrix_bogus" []).2.2 (by decide)⟩

/-- Updating one header key leaves the lookup of every other key unchanged. -/
lemma lookup_setHeader_ne (k0 v : String) (hs : List (String × String))
    (k : String) (h : k ≠ k0) :
    (setHeader k0 v hs).lookup k = hs.lookup k := by
  have hbk : (k == k0) = false := by simpa using h
  induction hs with
  | nil => simp [setHeader, List.lookup, hbk]
  | cons hd tl ih =>
    obtain ⟨k', v'⟩ := hd
    rcases hk : k' == k0 with _ | _
    · simp [setHeader, hk, List.lookup, ih]
    · have hk0 : k' = k0 := by simpa using hk
      subst hk0
      simp [setHeader, List.lookup, hbk]

/-- Accessing the `session` property on a client without a session
constructs one: afterwards a session object is present and exactly one more
construction has been performed, whichever branch (cloud or on-prem,
succeeding or raising) was taken. -/
lemma sessionGet_of_none (env : Env) (now : Int) (ex : TokenResponse)
    (st : ClientState) (h : st.session = none) :
    (sessionGet env now ex st).1.session.isSome = true ∧
    (sessionGet env now ex st).1.sessionsCreated = st.sessionsCreated + 1 := by
  simp only [sessionGet, h]
  split_ifs with hdep hcred
  · rcases htok : get_cloud_token env now ex st.tokenState with e | tr <;>
      simp [htok]
  · simp
  · simp

/-- Once a session object exists, one client operation keeps a session with
the same identity, verify flag and credential, performs no construction,
and changes at most the `Authorization` header value. -/
lemma clientStep_frame (env : Env) (st : ClientState) (s : SessionObj)
    (op : ClientOp) (hsess : st.session = some s) :
    ∃ s', (clientStep env st op).session = some s' ∧ s'.sid = s.sid ∧
      s'.verify = s.verify ∧ s'.auth = s.auth ∧
      (clientStep env st op).sessionsCreated = st.sessionsCreated ∧
      ∀ k, k ≠ "Authorization" →
        s'.headers.lookup k = s.headers.lookup k := by
  cases op with
  | opSession now ex =>
    refine ⟨s, ?_, rfl, rfl, rfl, ?_, fun k _ => rfl⟩
    · simp [clientStep, sessionGet, hsess]
    · simp [clientStep, sessionGet, hsess]
  | opRefresh now ex =>
    simp only [clientStep, refreshCloudSession]
    split_ifs with hdep
    · rcases htok : get_cloud_token env now ex st.tokenState with e | tr
      · exact ⟨s, by simp [htok, hsess], rfl, rfl, rfl, by simp [htok],
          fun k _ => rfl⟩
      · have hsg : sessionGet env now ex { st with tokenState := tr.state } =
            ({ st with tokenState := tr.state }, .ok s) := by
          simp [sessionGet, hsess]
        refine ⟨{ s with headers := setHeader "Authorization" ("CWSAuth bearer=" ++ tr.token) s.headers },
          ?_, rfl, rfl, rfl, ?_, ?_⟩
        · simp [htok, hsg]
        · simp [htok, hsg]
        · intro k hk
          exact lookup_setHeader_ne "Authorization" _ s.headers k hk
    · exact ⟨s, hsess, rfl, rfl, rfl, rfl, fun k _ => rfl⟩

/-- From a client without a session, one operation either leaves the state
sessionless with no construction, or constructs a session exactly once. -/
lemma clientStep_of_none (env : Env) (st : ClientState) (op : ClientOp)
    (h : st.session = none) :
    ((clientStep env st op).session = none ∧
      (clientStep env st op).sessionsCreated = st.sessionsCreated) ∨
    ((clientStep env st op).session.isSome = true ∧
      (clientStep env st op).sessionsCreated = st.sessionsCreated + 1) := by
  cases op with
  | opSession now ex =>
    exact Or.inr (sessionGet_of_none env now ex st h)
  | opRefresh now ex =>
    simp only [clientStep, refreshCloudSession]
    split_ifs with hdep
    · rcases htok : get_cloud_token env now ex st.tokenState with e | tr
      · simp [htok, h]
      · simp only [htok]
        rcases hsg : sessionGet env now ex { st with tokenState := tr.state }
          with ⟨st2, r⟩
        have hc := sessionGet_of_none env now ex
          { st with tokenState := tr.state } h
        rw [hsg] at hc
        rcases r with e | s
        · exact Or.inr hc
        · exact Or.inr ⟨rfl, hc.2⟩
    · exact Or.inl ⟨h, rfl⟩

/-- Over any operation sequence, a client that starts fresh (or already
holds its one session) ends with at most one construction performed. -/
lemma runOps_created (env : Env) (ops : List ClientOp) :
    ∀ st : ClientState,
      (st.session = none ∧ st.sessionsCreated = 0) ∨
        (st.session.isSome = true ∧ st.sessionsCreated ≤ 1) →
      (runOps env st ops).sessionsCreated ≤ 1 := by
  induction ops with
  | nil =>
    intro st h
    rcases h with ⟨_, h0⟩ | ⟨_, h1⟩
    · simp [runOps, h0]
    · simpa [runOps] using h1
  | cons op tl ih =>
    intro st h
    show (runOps env (clientStep env st op) tl).sessionsCreated ≤ 1
    apply ih
    rcases h with ⟨hn, h0⟩ | ⟨hs, h1⟩
    · rcases clientStep_of_none env st op hn with ⟨hn', he⟩ | ⟨hs', he⟩
      · exact Or.inl ⟨hn', by omega⟩
      · exact Or.inr ⟨hs', by omega⟩
    · obtain ⟨s, hsome⟩ := Option.isSome_iff_exists.mp hs
      obtain ⟨s', hs', _, _, _, he, _⟩ := clientStep_frame env st s op hsome
      exact Or.inr ⟨by simp [hs'], by omega⟩

/-- C8: the session singleton invariant. Starting from a fresh client, any
sequence of session accesses and token refreshes constructs the underlying
HTTP session at most once; and once a session object exists, every further
operation keeps the same object (same identity, verify flag and credential)
and changes at most the `Authorization` header value, leaving every other
header key untouched and constructing nothing new. -/
theorem session_singleton_invariant (env : Env) (st : ClientState) :
    (st.session = none → st.sessionsCreated = 0 →
      ∀ ops : List ClientOp, (runOps env st ops).sessionsCreated ≤ 1) ∧
    (∀ s op, st.session = some s →
      ∃ s', (clientStep env st op).session = some s' ∧ s'.sid = s.sid ∧
        s'.verify = s.verify ∧ s'.auth = s.auth ∧
        (clientStep env st op).sessionsCreated = st.sessionsCreated ∧
        ∀ k, k ≠ "Authorization" →
          s'.headers.lookup k = s.headers.lookup k) := by
  constructor
  · intro h1 h2 ops
    exact runOps_created env ops st (Or.inl ⟨h1, h2⟩)
  · intro s op hsess
    exact clientStep_frame env st s op hsess

/-- C8 witness: a fresh client running a session access and two refreshes
constructs at most one session, and one refresh on an existing session
keeps the object and its non-Authorization headers. -/
theorem session_singleton_invariant_witness :
    (runOps envCloudW st0W opsListW).sessionsCreated ≤ 1 ∧
    ∃ s', (clientStep envCloudW stSomeW (ClientOp.opRefresh 10 exchW)).session =
        some s' ∧ s'.sid = sessW.sid ∧ s'.verify = sessW.verify ∧
      s'.auth = sessW.auth ∧
      (clientStep envCloudW stSomeW
        (ClientOp.opRefresh 10 exchW)).sessionsCreated =
        stSomeW.sessionsCreated ∧
      ∀ k, k ≠ "Authorization" →
        s'.headers.lookup k = sessW.headers.lookup k :=
  ⟨(session_singleton_invariant envCloudW st0W).1 rfl rfl opsListW,
   (session_singleton_invariant envCloudW stSomeW).2 sessW
     (ClientOp.opRefresh 10 exchW) rfl⟩

/-- C9: a page whose decoded body lacks a `value` field contributes zero
records and raises no error — the aggregated result is the concatenation of
the remaining pages' records, and pagination continues through the whole
chain (still one request per page). -/
theorem query_missing_value_page (α : Type) (fetch : Fetch α) (env : Env)
    (entity : String) (o : QueryOpts) (chain : List (String × Page α))
    (fuel i : Nat)
    (hhead : chain.head?.map Prod.fst = some (base_url env ++ "/" ++ entity))
    (hl : chainLinked fetch (some (buildParams o)) chain)
    (hf : chain.length ≤ fuel) (hi : i < chain.length)
    (hv : chain[i].2.value = none) :
    query fetch fuel env entity o =
      .ok (chainRecords chain, chainReqs (some (buildParams o)) chain) ∧
    chainRecords chain =
      chainRecords (chain.take i) ++ chainRecords (chain.drop (i + 1)) ∧
    (chainReqs (some (buildParams o)) chain).length = chain.length := by
  have hmain := queryLoop_chain fetch chain (some (buildParams o)) fuel [] []
    hl hf
  refine ⟨?_, ?_, chainReqs_length _ _⟩
  · rcases chain with _ | ⟨⟨u, pg⟩, tl⟩
    · simp at hhead
    · have hu : u = base_url env ++ "/" ++ entity := by
        simpa using hhead
      rw [query, ← hu]
      simpa using hmain
  · have hsplit : chain = chain.take i ++ chain[i] :: chain.drop (i + 1) := by
      conv_lhs => rw [← List.take_append_drop i chain]
      rw [List.drop_eq_getElem_cons hi]
    nth_rewrite 1 [hsplit]
    rw [chainRecords_append]
    have hstep : chainRecords (chain[i] :: chain.drop (i + 1)) =
        chainRecords (chain.drop (i + 1)) := by
      simp only [chainRecords, List.map_cons, List.flatten_cons, hv,
        Option.getD_none, List.nil_append]
    rw [hstep]

/-- C9 witness: a two-page collection whose first page body has no `value`
field; the result is exactly the second page's records. -/
theorem query_missing_value_page_witness :
    query fetchNoValW 2 envCloudW "Machines" optsW =
      .ok (chainRecords chainNoValW,
           chainReqs (some (buildParams optsW)) chainNoValW) ∧
    chainRecords chainNoValW =
      chainRecords (chainNoValW.take 0) ++ chainRecords (chainNoValW.drop 1) ∧
    (chainReqs (some (buildParams optsW)) chainNoValW).length =
      chainNoValW.length :=
  query_missing_value_page Nat fetchNoValW envCloudW "Machines" optsW
    chainNoValW 2 0 rfl
    ⟨by decide, rfl, rfl, by decide, rfl, rfl, trivial⟩ (by decide)
    (by decide) rfl

end Citrix
